import Mathlib

/-!
Verification of the port multiplexing / expect core of `esp-test-utils`
(`esptest/adapter/port/base_port.py` and the legacy variant
`esptest/adapter/base_port.py`, plus `esptest/common/encoding.py`).

The Python code is shallowly embedded: byte strings become `List Nat`
(one `Nat` per byte), text strings become `List Nat` (one `Nat` per
unicode code point), mutable objects become explicit state records and
every method becomes a pure function from old state (plus its inputs)
to new state (plus its outputs).  Wall-clock instants are natural
numbers; `time.time()` values are threaded explicitly where the code
reads the clock.  File system writes and logging calls carry no state
that any modelled behaviour depends on, so flush operations return the
flushed payload instead of performing IO.
-/

namespace EspTest

/-- Byte strings (`bytes` in Python): one `Nat` per byte. -/
abbrev Bytes := List Nat

/-- Text strings (`str` in Python): one `Nat` per unicode code point. -/
abbrev Text := List Nat

/-! ### UTF-8 encoding and decoding

`esptest/common/encoding.py` converts between `str` and `bytes` with
`data.encode('utf-8')` and `data.decode('utf-8', errors='replace')`.
-/

/-- UTF-8 encoding of one code point (standard 1–4 byte encoding). -/
def utf8EncodeChar (c : Nat) : List Nat :=
  if c < 0x80 then [c]
  else if c < 0x800 then [0xC0 + c / 64, 0x80 + c % 64]
  else if c < 0x10000 then [0xE0 + c / 4096, 0x80 + (c / 64) % 64, 0x80 + c % 64]
  else [0xF0 + c / 262144, 0x80 + (c / 4096) % 64, 0x80 + (c / 64) % 64, 0x80 + c % 64]

/-- `str.encode('utf-8')`. -/
def utf8Encode (s : Text) : Bytes := (s.map utf8EncodeChar).flatten

/-- Is `b` a UTF-8 continuation byte (`0x80..0xBF`)? -/
def isCont (b : Nat) : Bool := 0x80 ≤ b && b ≤ 0xBF

/-- `bytes.decode('utf-8', errors='replace')`: parse well-formed UTF-8
sequences to their code point and turn ill-formed input into the
replacement character `U+FFFD`, resynchronising on the next byte.
(For well-formed input, which is all the concrete inputs used in this
file, this agrees exactly with CPython.) -/
def utf8DecodeAux : Nat → Bytes → Text
  | 0, _ => []
  | _, [] => []
  | fuel + 1, b :: rest =>
    if b < 0x80 then b :: utf8DecodeAux fuel rest
    else if 0xC2 ≤ b && b ≤ 0xDF then
      match rest with
      | b2 :: rest2 =>
        if isCont b2 then ((b - 0xC0) * 64 + (b2 - 0x80)) :: utf8DecodeAux fuel rest2
        else 0xFFFD :: utf8DecodeAux fuel rest
      | [] => [0xFFFD]
    else if 0xE0 ≤ b && b ≤ 0xEF then
      match rest with
      | b2 :: b3 :: rest3 =>
        if (if b = 0xE0 then 0xA0 ≤ b2 && b2 ≤ 0xBF
            else if b = 0xED then 0x80 ≤ b2 && b2 ≤ 0x9F
            else isCont b2) && isCont b3 then
          ((b - 0xE0) * 4096 + (b2 - 0x80) * 64 + (b3 - 0x80)) :: utf8DecodeAux fuel rest3
        else 0xFFFD :: utf8DecodeAux fuel rest
      | _ => 0xFFFD :: utf8DecodeAux fuel rest
    else if 0xF0 ≤ b && b ≤ 0xF4 then
      match rest with
      | b2 :: b3 :: b4 :: rest4 =>
        if (if b = 0xF0 then 0x90 ≤ b2 && b2 ≤ 0xBF
            else if b = 0xF4 then 0x80 ≤ b2 && b2 ≤ 0x8F
            else isCont b2) && isCont b3 && isCont b4 then
          ((b - 0xF0) * 262144 + (b2 - 0x80) * 4096 + (b3 - 0x80) * 64 + (b4 - 0x80))
            :: utf8DecodeAux fuel rest4
        else 0xFFFD :: utf8DecodeAux fuel rest
      | _ => 0xFFFD :: utf8DecodeAux fuel rest
    else 0xFFFD :: utf8DecodeAux fuel rest

/-- `bytes.decode('utf-8', errors='replace')`.  Every step of
`utf8DecodeAux` consumes at least one byte, so `bs.length` is always
enough fuel. -/
def utf8Decode (bs : Bytes) : Text := utf8DecodeAux bs.length bs

/-! ### `str` / `bytes` values and `esptest/common/encoding.py` -/

/-- A Python value that is either `str` or `bytes` (`t.AnyStr` /
`t.Union[str, bytes]` in the source). -/
inductive PyData where
  | str (s : Text)
  | bytes (b : Bytes)
deriving DecidableEq

/-- Python truthiness of a `str`/`bytes` value (empty is falsy). -/
def PyData.truthy : PyData → Bool
  | .str s => !s.isEmpty
  | .bytes b => !b.isEmpty

/-- The raw bytes of a `str`/`bytes` value after UTF-8 encoding
(identity on `bytes`). -/
def PyData.encode : PyData → Bytes
  | .str s => utf8Encode s
  | .bytes b => b

/-- `esptest.common.encoding.to_bytes(data, ending)`: encode `data` to
bytes (UTF-8 for `str`, identity for `bytes`); if `ending` is truthy,
encode it too and append it. -/
def to_bytes (data : PyData) (ending : Option PyData) : Bytes :=
  let d := data.encode
  match ending with
  | some e => if e.truthy then d ++ e.encode else d
  | none => d

/-- `esptest.common.encoding.to_str(data)`: decode bytes with UTF-8 and
`errors='replace'`, identity on `str`. -/
def to_str (data : PyData) : Text :=
  match data with
  | .str s => s
  | .bytes b => utf8Decode b

/-! ### `PortSpawn` state (`esptest/adapter/port/base_port.py`)

`PortSpawn.__init__` creates: `_data_cache = b''`, `_line_cache = b''`,
`_last_write_log_time = time.time()`, an empty `_read_queue`, a cleared
stop event, a running read thread and `receive_callback = None`.
-/

structure PortSpawnState where
  /-- `_data_cache`: the buffered, not-yet-consumed tail of received bytes. -/
  data_cache : Bytes
  /-- `_line_cache`: partial-line buffer of the line log writer. -/
  line_cache : Bytes
  /-- `_last_write_log_time` (a `time.time()` instant). -/
  last_write_log_time : Nat
  /-- `_read_queue`: FIFO of byte chunks pushed by the read thread. -/
  read_queue : List Bytes
  /-- whether a `receive_callback` is registered (`receive_callback is not None`). -/
  receive_callback : Bool
  /-- `_read_thread_stop_event.is_set()`. -/
  stop_event_set : Bool
  /-- whether `_read_thread.join()` has completed. -/
  thread_joined : Bool
  /-- `log_file` attribute read by `_write_port_log` (`''` means unset). -/
  log_file : String
deriving DecidableEq

/-- A freshly constructed `PortSpawn` (read thread just started). -/
def PortSpawn.init (log_file : String) (now : Nat) : PortSpawnState :=
  { data_cache := [], line_cache := [], last_write_log_time := now,
    read_queue := [], receive_callback := false,
    stop_event_set := false, thread_joined := false, log_file := log_file }

/-- `PortSpawn.close` (identical to the legacy `PortSpawn.stop`):
sets the stop event, joins the read thread, evaluates
`self._read_queue.empty()` — in Python a pure emptiness *query* on
`queue.Queue` that removes nothing, so `read_queue` is unchanged —
then clears the callback and both caches. -/
def PortSpawn.close (s : PortSpawnState) : PortSpawnState :=
  { s with stop_event_set := true, thread_joined := true,
           receive_callback := false, data_cache := [], line_cache := [] }

/-! ### `RawPort` endpoints and `BasePort` facade state -/

/-- Observable state of a `RawPort` endpoint for the claims: whether it
has a callable `close` attribute, whether `close()` has been invoked on
it, and the chunks passed to `write_bytes` in order. -/
structure RawPortState where
  has_close : Bool
  closed : Bool
  written : List Bytes
deriving DecidableEq

/-- State of a `BasePort` facade (`esptest/adapter/port/base_port.py`).
`_kwargs`, loggers and the pexpect plumbing that no claim touches are
elided; `os.path.abspath` is treated as the identity on the opaque
path strings. -/
structure BasePortState where
  /-- `_raw_port` (`none` models a falsy raw port). -/
  raw_port : Option RawPortState
  /-- `_pexpect_spawn`; `some` iff the redirect thread is running. -/
  spawn : Option PortSpawnState
  /-- `_close_redirect_thread_when_exit` (constructor kwarg, default `True`). -/
  close_redirect_thread_when_exit : Bool
  /-- `_log_file`. -/
  log_file_field : String
deriving DecidableEq

/-- `BasePort.close`: `if self._close_redirect_thread_when_exit and
self._pexpect_spawn: self._pexpect_spawn.close()` (the reference is not
cleared), then — unconditionally — `if self.raw_port:` and
`hasattr(self.raw_port, 'close')`, call `self.raw_port.close()`. -/
def BasePort.close (s : BasePortState) : BasePortState :=
  let s1 :=
    if s.close_redirect_thread_when_exit && s.spawn.isSome then
      { s with spawn := s.spawn.map PortSpawn.close }
    else s
  match s1.raw_port with
  | some rp => if rp.has_close then { s1 with raw_port := some { rp with closed := true } } else s1
  | none => s1

/-- `BasePort.start_redirect_thread`: no-op when a spawn already exists,
otherwise create a fresh `PortSpawn` on the current log file.
(`_init_log_file` only appends a banner to the log file.) -/
def BasePort.start_redirect_thread (now : Nat) (s : BasePortState) : BasePortState :=
  if s.spawn.isSome then s
  else { s with spawn := some (PortSpawn.init s.log_file_field now) }

/-- `BasePort.stop_redirect_thread`: returns `False` when no spawn is
running; otherwise closes the spawn, drops the reference and returns
`True`. -/
def BasePort.stop_redirect_thread (s : BasePortState) : Bool × BasePortState :=
  match s.spawn with
  | none => (false, s)
  | some _ => (true, { s with spawn := none })

/-- `BasePort.disable_redirect_thread` (a `contextlib.contextmanager`):
stop the redirect thread, run the caller's critical section `body`,
and restart the thread only `if stopped:`. -/
def BasePort.disable_redirect_thread (now : Nat) (s : BasePortState)
    (body : BasePortState → BasePortState) : BasePortState :=
  let r := BasePort.stop_redirect_thread s
  let s2 := body r.2
  if r.1 then BasePort.start_redirect_thread now s2 else s2

/-- `BasePort.log_file` setter (`esptest/adapter/port/base_port.py`):
no-op if unchanged, else forward the new path to
`self._pexpect_spawn.log_file` (when a spawn exists) and store it. -/
def BasePort.set_log_file (s : BasePortState) (new_log_file : String) : BasePortState :=
  if new_log_file = s.log_file_field then s
  else { s with log_file_field := new_log_file,
                spawn := s.spawn.map (fun sp => { sp with log_file := new_log_file }) }

/-! ### Legacy facade (`esptest/adapter/base_port.py`) log-file setter -/

/-- Legacy `PortSpawn` state restricted to the log writer: the
`log_file` attribute that `_write_port_log` opens for flushing, the
`serial_log_file` attribute that the legacy `BasePort.log_file` setter
assigns (created dynamically; read by no method of this class), and the
pending line cache. -/
structure LegacySpawnState where
  log_file : String
  serial_log_file : Option String
  line_cache : Bytes
deriving DecidableEq

/-- Legacy `BasePort` state for the log-file setter. -/
structure LegacyBasePortState where
  log_file_field : String
  pexpect_proc : Option LegacySpawnState
deriving DecidableEq

/-- Legacy `BasePort.log_file` setter (`esptest/adapter/base_port.py`):
no-op if unchanged, else `self._pexpect_proc.serial_log_file =
new_log_file` (when a proc exists) and store the new path. -/
def LegacyBasePort.set_log_file (s : LegacyBasePortState) (new_log_file : String) :
    LegacyBasePortState :=
  if new_log_file = s.log_file_field then s
  else { log_file_field := new_log_file,
         pexpect_proc := s.pexpect_proc.map
           (fun sp => { sp with serial_log_file := some new_log_file }) }

/-- The path the legacy `PortSpawn._write_port_log` flushes to:
`if self.log_file: open(self.log_file, 'ab+')`. -/
def LegacySpawn.flush_target (sp : LegacySpawnState) : String := sp.log_file

/-! ### The `handle_expect_timeout` wrapper -/

/-- The exceptions the matching primitive can raise, as the facade
classifies them: members of `EXPECT_TIMEOUT_EXCEPTIONS =
(TimeoutError, pexpect.exceptions.ExceptionPexpect)`, or anything
else. -/
inductive PyExc where
  | timeout_error (msg : String)
  | pexpect_exception (msg : String)
  | other (msg : String)
deriving DecidableEq

/-- `str(e)` for a raised exception. -/
def PyExc.message : PyExc → String
  | .timeout_error m => m
  | .pexpect_exception m => m
  | .other m => m

/-- `isinstance(e, self.expect_timeout_exceptions)`. -/
def PyExc.in_expect_timeout_exceptions : PyExc → Bool
  | .timeout_error _ => true
  | .pexpect_exception _ => true
  | .other _ => false

/-- The unified `ExpectTimeout` exception of
`esptest/adapter/port/base_port.py`: message plus `data_in_buffer`. -/
structure ExpectTimeoutExc where
  message : String
  data_in_buffer : PyData
deriving DecidableEq

/-- Outcome of a call through the `handle_expect_timeout` decorator. -/
inductive WrapOutcome (α : Type) where
  | ok (a : α)
  | raised_expect_timeout (e : ExpectTimeoutExc)
  | reraised (e : PyExc)
deriving DecidableEq

/-- `BasePort.handle_expect_timeout` (`esptest/adapter/port/base_port.py`):
run the wrapped call; if it raises an exception from
`expect_timeout_exceptions`, read `self._pexpect_spawn.before` (an
`AttributeError` — no spawn — yields `''`) and raise
`ExpectTimeout(str(e), data_in_buffer=...)`; other exceptions and
normal results pass through. `spawn_before` is the spawn's unmatched
buffered data, `none` when `_pexpect_spawn` is `None`. -/
def handle_expect_timeout {α : Type} (spawn_before : Option Bytes)
    (r : Except PyExc α) : WrapOutcome α :=
  match r with
  | .ok a => .ok a
  | .error e =>
    if e.in_expect_timeout_exceptions then
      let dib : PyData :=
        match spawn_before with
        | some b => .bytes b
        | none => .str []
      .raised_expect_timeout ⟨e.message, dib⟩
    else .reraised e

/-! ### `BasePort.write` / `BasePort.write_line` -/

/-- `BasePort.write`: if a spawn exists, `PortSpawn.write` passes
`to_bytes(data)` to `raw_port.write_bytes` (one call); otherwise
`raise NotImplementedError()` (modelled as `none`). -/
def BasePort.write (s : BasePortState) (data : PyData) : Option BasePortState :=
  if s.spawn.isSome then
    let rp' := s.raw_port.map (fun rp => { rp with written := rp.written ++ [to_bytes data none] })
    some { s with raw_port := rp' }
  else none

/-- `BasePort.write_line(data, end='\n')`:
`self.write(to_bytes(data, end))`. -/
def BasePort.write_line (s : BasePortState) (data : PyData) (lineEnd : Text) :
    Option BasePortState :=
  BasePort.write s (.bytes (to_bytes data (some (.str lineEnd))))

/-! ### `PortSpawn.read_nonblocking`

Both variants have the same body.  Time is explicit: `t0` is the
`time.time()` value at call start; `arrivals` are the chunks the read
thread will `put` on the queue after `t0`, as `(instant, chunk)` pairs
in arrival order; `queued` are the chunks already sitting in the queue.
-/

/-- The waiting loop `while not self._data_cache and time_left > 0:`
with `time_left = t0 + timeout - time.time()` recomputed each round.
`queue.get(timeout=time_left)` delivers the next arrival if its instant
is at most the fixed deadline, else raises `queue.Empty` at the
deadline.  Returns the cache and the instant at which the loop exits. -/
def waitForData (deadline : Nat) : List (Nat × Bytes) → Bytes → Nat → Bytes × Nat
  | [], cache, now =>
    if cache.isEmpty && decide (now < deadline) then (cache, deadline) else (cache, now)
  | (t, chunk) :: rest, cache, now =>
    if cache.isEmpty && decide (now < deadline) then
      if t ≤ deadline then waitForData deadline rest (cache ++ chunk) t
      else (cache, deadline)
    else (cache, now)

/-- Result of `read_nonblocking`: the returned bytes, the new
`_data_cache`, and the wall-clock instant at which the call returns. -/
structure ReadNBResult where
  ret : Bytes
  data_cache : Bytes
  return_time : Nat
deriving DecidableEq

/-- `PortSpawn.read_nonblocking(size, timeout)`: drain every chunk
already queued into the cache (the first `while True` loop of
zero-timeout `get`s), then wait for data until `t0 + timeout`, then
return the first `size` bytes of the cache (empty if the cache is still
empty) and retain the rest. -/
def read_nonblocking (cache0 : Bytes) (queued : List Bytes)
    (arrivals : List (Nat × Bytes)) (size : Nat) (timeout : Nat) (t0 : Nat) : ReadNBResult :=
  let cache1 := cache0 ++ queued.flatten
  let deadline := t0 + timeout
  let w := waitForData deadline arrivals cache1 t0
  if w.1.isEmpty then
    { ret := [], data_cache := w.1, return_time := w.2 }
  else
    { ret := w.1.take size, data_cache := w.1.drop size, return_time := w.2 }

/-! ### `PortSpawn._write_port_log` (the line log writer) -/

/-- `bytes.endswith(b'\n')`. -/
def endsWithNewline (l : Bytes) : Bool := l.getLast? = some 10

/-- The index of the last `\n` in `l` (`bytes.rfind(b'\n')`,
`none` for `-1`). -/
def rfindNewline : Bytes → Option Nat
  | [] => none
  | b :: rest =>
    match rfindNewline rest with
    | some i => some (i + 1)
    | none => if b = 10 then some 0 else none

/-- Result of one `_write_port_log` call: the bytes flushed to the log
target (empty when nothing is flushed; the timestamp header that
precedes a flush in the file is not part of the line cache and is
elided) and the new writer state. -/
structure WriteLogResult where
  data_to_write : Bytes
  line_cache : Bytes
  last_write_log_time : Nat
deriving DecidableEq

/-- `PortSpawn._write_port_log(data)`: append `data` to `_line_cache`
(only when `data` is truthy); flush the whole cache if it ends with a
newline; else flush through `rfind(b'\n') + 1` keeping the remainder;
else, if nothing was selected, the cache is non-empty and
`time.time() - _last_write_log_time > read_timeout * 5`, force-flush
the whole cache.  `_last_write_log_time` advances only when something
is flushed. -/
def write_port_log (read_timeout : Nat) (now : Nat) (line_cache0 : Bytes)
    (last_time : Nat) (data : Bytes) : WriteLogResult :=
  let step1 : Bytes × Bytes :=
    if !data.isEmpty then
      let lc := line_cache0 ++ data
      if endsWithNewline lc then (lc, [])
      else if lc.contains 10 then
        match rfindNewline lc with
        | some i => (lc.take (i + 1), lc.drop (i + 1))
        | none => ([], lc)
      else ([], lc)
    else ([], line_cache0)
  let step2 : Bytes × Bytes :=
    if step1.1.isEmpty && !step1.2.isEmpty && decide (last_time + read_timeout * 5 < now) then
      (step1.2, [])
    else step1
  { data_to_write := step2.1, line_cache := step2.2,
    last_write_log_time := if step2.1.isEmpty then last_time else now }

/-! ### `BasePort.expect_exact` -/

/-- First occurrence of `pat` as a contiguous subsequence of the
haystack: returns the bytes that remain after the end of the first
occurrence, `none` if there is none. -/
def findSub (pat : Bytes) : Bytes → Option Bytes
  | [] => if pat.isPrefixOf [] then some (([] : Bytes).drop pat.length) else none
  | x :: rest =>
    if pat.isPrefixOf (x :: rest) then some ((x :: rest).drop pat.length)
    else findSub pat rest

/-- Modelled from the spec: `pexpect.spawnbase.SpawnBase.expect_exact`
(third-party library, not under `src/`) — "consume and discard bytes
until the literal subsequence is found".  `incoming` is the byte stream
available within the timeout (current buffer plus chunks that arrive in
time); success consumes through the end of the first occurrence and
leaves the remainder buffered, absence of the literal raises the
pexpect TIMEOUT exception. -/
def spawn_expect_exact (pat : Bytes) (incoming : Bytes) : Option Bytes :=
  findSub pat incoming

/-- Outcome of a facade-level expect call. -/
inductive ExpectExactOutcome where
  | ok
  | raised_expect_timeout (data_in_buffer : Bytes)
  | raised_not_implemented
deriving DecidableEq

/-- `BasePort.expect_exact(pattern, timeout)` (both variants, wrapped in
`handle_expect_timeout`): `if self.spawn:` run
`self.spawn.expect_exact(to_bytes(pattern), timeout)` — a TIMEOUT from
it is translated to `ExpectTimeout` by the decorator — and then, the
`if` block having no `return` statement, control falls through to
`raise NotImplementedError()` even after a successful match. -/
def BasePort.expect_exact (s : BasePortState) (pattern : PyData) (incoming : Bytes) :
    ExpectExactOutcome :=
  if s.spawn.isSome then
    match spawn_expect_exact (to_bytes pattern none) incoming with
    | some _ => .raised_not_implemented
    | none => .raised_expect_timeout incoming
  else .raised_not_implemented

/-! ### The regex engine and `BasePort.expect`

The Python code delegates matching to `re` / pexpect.  The pattern
language is embedded as an abstract syntax tree of the pure regular
constructs (literal character, `.`, alternation, concatenation, Kleene
star) with Python's deterministic leftmost-first backtracking
semantics: alternation prefers its left branch, star is greedy and
never repeats an empty match.  A `re.Pattern[str]` is such a tree over
code points; `re.compile(to_bytes(pattern.pattern), flags)` re-reads
the same pattern source as bytes, which turns every literal character
into the concatenation of its UTF-8 bytes and leaves `.` matching a
single *byte*.
-/

inductive Reg where
  | eps
  | chr (c : Nat)
  | dot
  | alt (r1 r2 : Reg)
  | cat (r1 r2 : Reg)
  | star (r : Reg)
deriving DecidableEq

/-- Backtracking matcher with continuation `k`, leftmost-first.
`dotall` is the `re.DOTALL` flag: without it `.` does not match the
newline (byte or code point 10).  `fuel` bounds the depth of nested
matching steps; every call below passes a bound that is never reached
on this file's inputs. -/
def mrun (dotall : Bool) : Nat → Reg → List Nat → (List Nat → Option (List Nat)) →
    Option (List Nat)
  | 0, _, _, _ => none
  | fuel + 1, r, s, k =>
    match r with
    | .eps => k s
    | .chr c =>
      match s with
      | [] => none
      | x :: rest => if x = c then k rest else none
    | .dot =>
      match s with
      | [] => none
      | x :: rest => if x = 10 && !dotall then none else k rest
    | .alt r1 r2 =>
      match mrun dotall fuel r1 s k with
      | some res => some res
      | none => mrun dotall fuel r2 s k
    | .cat r1 r2 => mrun dotall fuel r1 s (fun s1 => mrun dotall fuel r2 s1 k)
    | .star rb =>
      match mrun dotall fuel rb s
          (fun s1 => if s1.length < s.length then mrun dotall fuel (.star rb) s1 k else none) with
      | some res => some res
      | none => k s

/-- Structural size of a pattern tree. -/
def Reg.size : Reg → Nat
  | .eps => 1
  | .chr _ => 1
  | .dot => 1
  | .alt r1 r2 => r1.size + r2.size + 1
  | .cat r1 r2 => r1.size + r2.size + 1
  | .star r => r.size + 1

/-- Fuel that is ample for every backtracking path of `r` on `s`. -/
def matchFuel (r : Reg) (s : List Nat) : Nat := (r.size + 2) * (s.length + 2)

/-- `pattern.match(s)` — anchored at the start; returns the matched
content (the first match in backtracking order), `none` if no prefix
matches. -/
def matchAnchored (dotall : Bool) (r : Reg) (s : List Nat) : Option (List Nat) :=
  (mrun dotall (matchFuel r s) r s some).map (fun rest => s.take (s.length - rest.length))

/-- `re.search` as pexpect applies it to the accumulated buffer:
try an anchored match at each successive start position and return the
content of the leftmost match. -/
def searchMatch (dotall : Bool) (r : Reg) : List Nat → Option (List Nat)
  | [] =>
    match matchAnchored dotall r [] with
    | some m => some m
    | none => none
  | x :: rest =>
    match matchAnchored dotall r (x :: rest) with
    | some m => some m
    | none => searchMatch dotall r rest

/-- `re.compile(to_bytes(pattern.pattern), re_flags)`: the pattern
source re-read over bytes.  A literal character becomes the
concatenation of its UTF-8 bytes; the metacharacters are ASCII and
re-encode to themselves, so the structure is preserved and `.` now
matches one byte. -/
def toByteReg : Reg → Reg
  | .eps => .eps
  | .chr c => (utf8EncodeChar c).foldr (fun b acc => .cat (.chr b) acc) .eps
  | .dot => .dot
  | .alt r1 r2 => .alt (toByteReg r1) (toByteReg r2)
  | .cat r1 r2 => .cat (toByteReg r1) (toByteReg r2)
  | .star r => .star (toByteReg r)

/-- Python flag constants: `re.IGNORECASE = 2`, `re.MULTILINE = 8`,
`re.DOTALL = 16`. -/
def preservedFlags (flags : Nat) : Nat := flags &&& (16 + 8 + 2)

/-- Does a flag word have `re.DOTALL` set? -/
def hasDotall (flags : Nat) : Bool := flags.testBit 4

/-- `BasePort.expect` on a `re.Pattern[str]` (both variants, wrapped in
`handle_expect_timeout`): re-compile the pattern source over bytes
keeping only `DOTALL | MULTILINE | IGNORECASE`, run the byte-level
search on the stream (`stream` is the bytes available within the
timeout; no byte-level match raises TIMEOUT, which the decorator turns
into `ExpectTimeout` carrying the unmatched buffer), then re-apply the
original text pattern with `pattern.match(to_str(match.group(0)))` and
return that — possibly `None`. -/
def expectStrPattern (pat : Reg) (flags : Nat) (stream : Bytes) :
    WrapOutcome (Option Text) :=
  let bflags := preservedFlags flags
  match searchMatch (hasDotall bflags) (toByteReg pat) stream with
  | none => .raised_expect_timeout ⟨"Timeout exceeded.", PyData.bytes stream⟩
  | some m => .ok (matchAnchored (hasDotall flags) pat (utf8Decode m))

/-! ## Helper lemmas -/

/-- A non-empty cache makes the waiting loop exit immediately. -/
theorem waitForData_of_ne (d : Nat) (a : List (Nat × Bytes)) (cache : Bytes) (now : Nat)
    (h : cache ≠ []) : waitForData d a cache now = (cache, now) := by
  cases a with
  | nil => simp [waitForData, h]
  | cons hd tl => cases hd with
    | mk t chunk => simp [waitForData, h]

/-- If every arrival is strictly after the deadline, the cache stays
empty through the waiting loop. -/
theorem waitForData_all_late (d : Nat) (a : List (Nat × Bytes)) (now : Nat)
    (h : ∀ tc ∈ a, d < tc.1) : (waitForData d a [] now).1 = [] := by
  cases a with
  | nil =>
    by_cases hn : now < d <;> simp [waitForData, hn]
  | cons hd tl =>
    cases hd with
    | mk t chunk =>
      have ht : d < t := h (t, chunk) (List.mem_cons_self _ _)
      by_cases hn : now < d
      · simp [waitForData, hn, Nat.not_le.mpr ht]
      · simp [waitForData, hn]

/-- If a byte string has no last `\n`, it contains no `\n`. -/
theorem rfindNewline_none (l : Bytes) (h : rfindNewline l = none) : l.contains 10 = false := by
  induction l with
  | nil => rfl
  | cons b rest ih =>
    rw [rfindNewline] at h
    cases hr : rfindNewline rest with
    | some i => rw [hr] at h; exact absurd h (by simp)
    | none =>
      rw [hr] at h
      have hb : b ≠ 10 := by
        intro hb; rw [hb] at h; simp at h
      have hrest : (10 : Nat) ∉ rest := by simpa using ih hr
      simp [List.contains_cons]
      exact ⟨fun hx => hb hx.symm, hrest⟩

/-- The slice up through the last newline really ends in a newline. -/
theorem rfindNewline_take (l : Bytes) (i : Nat) (h : rfindNewline l = some i) :
    ∃ pre, l.take (i + 1) = pre ++ [10] := by
  induction l generalizing i with
  | nil => exact absurd h (by simp [rfindNewline])
  | cons b rest ih =>
    rw [rfindNewline] at h
    cases hr : rfindNewline rest with
    | some j =>
      rw [hr] at h
      have hij : i = j + 1 := by
        have := h; simp at this; omega
      subst hij
      obtain ⟨pre, hp⟩ := ih j hr
      exact ⟨b :: pre, by simp [List.take_succ_cons, hp]⟩
    | none =>
      rw [hr] at h
      by_cases hb : b = 10
      · rw [if_pos hb] at h
        have hi : i = 0 := by simpa using h.symm
        subst hi hb
        exact ⟨[], by simp⟩
      · rw [if_neg hb] at h; exact absurd h (by simp)

/-- The slice after the last newline contains no newline. -/
theorem rfindNewline_drop (l : Bytes) (i : Nat) (h : rfindNewline l = some i) :
    (l.drop (i + 1)).contains 10 = false := by
  induction l generalizing i with
  | nil => exact absurd h (by simp [rfindNewline])
  | cons b rest ih =>
    rw [rfindNewline] at h
    cases hr : rfindNewline rest with
    | some j =>
      rw [hr] at h
      have hij : i = j + 1 := by
        have := h; simp at this; omega
      subst hij
      simpa [List.drop_succ_cons] using ih j hr
    | none =>
      rw [hr] at h
      by_cases hb : b = 10
      · rw [if_pos hb] at h
        have hi : i = 0 := by simpa using h.symm
        subst hi
        simpa using rfindNewline_none rest hr
      · rw [if_neg hb] at h; exact absurd h (by simp)

/-- `to_bytes(data, end)` with a `str` ending always encodes `data` and
appends the UTF-8 encoding of the ending (also when the ending is the
falsy `''`, whose encoding is empty). -/
theorem to_bytes_str_ending (data : PyData) (e : Text) :
    to_bytes data (some (.str e)) = data.encode ++ utf8Encode e := by
  cases e with
  | nil => simp [to_bytes, PyData.truthy, PyData.encode, utf8Encode]
  | cons c cs => simp [to_bytes, PyData.truthy, PyData.encode]

/-! ## Claims -/

/-- C1: the claim says that on a started facade, `expect_exact` with a
pattern that does appear in the incoming stream consumes through the
literal and returns successfully without raising.  The code violates
this: the `if self.spawn:` block has no `return`, so after the spawn's
`expect_exact` succeeds control falls through to
`raise NotImplementedError()`.  At the failing input below the literal
`b"ab"` does occur (the spawn-level match succeeds, leaving `b"y"`),
yet the facade raises `NotImplementedError`. -/
theorem c1_expect_exact_raises_after_successful_match :
    spawn_expect_exact (to_bytes (PyData.str [97, 98]) none) [120, 97, 98, 121] = some [121]
    ∧ BasePort.expect_exact
        { raw_port := none, spawn := some (PortSpawn.init "" 0),
          close_redirect_thread_when_exit := true, log_file_field := "" }
        (.str [97, 98]) [120, 97, 98, 121] = .raised_not_implemented := by
  decide

/-- C2: the claim says `close`/`stop` leaves the ByteQueue empty,
removes the receive callback and resets both caches.  The callback and
cache parts hold, but `self._read_queue.empty()` is an emptiness query
that removes nothing, so a chunk sitting in the queue at close time is
still there afterwards. -/
theorem c2_close_retains_queued_chunks :
    PortSpawn.close
      { data_cache := [97], line_cache := [98], last_write_log_time := 3,
        read_queue := [[104, 105]], receive_callback := true,
        stop_event_set := false, thread_joined := false, log_file := "" }
    = { data_cache := [], line_cache := [], last_write_log_time := 3,
        read_queue := [[104, 105]], receive_callback := false,
        stop_event_set := true, thread_joined := true, log_file := "" } := by
  decide

/-- C3 counterexample: a facade constructed with
`close_redirect_thread_when_exit=False` (the only ownership flag the
constructor accepts) still invokes `raw_port.close()` from `close()`. -/
theorem c3_close_closes_unowned_raw_port :
    (BasePort.close
        { raw_port := some { has_close := true, closed := false, written := [] },
          spawn := some (PortSpawn.init "" 0),
          close_redirect_thread_when_exit := false, log_file_field := "" }).raw_port
    = some { has_close := true, closed := true, written := [] } := by
  decide

/-- C3 amended: `close()` always invokes `raw_port.close()` whenever the
raw port is present and has a callable `close`, regardless of the
constructor flag; the `close_redirect_thread_when_exit` flag only
controls whether the redirect thread is stopped. -/
theorem c3_close_always_closes_raw_port (s : BasePortState) (rp : RawPortState)
    (h1 : s.raw_port = some rp) (h2 : rp.has_close = true) :
    (BasePort.close s).raw_port = some { rp with closed := true }
    ∧ (s.close_redirect_thread_when_exit = false → (BasePort.close s).spawn = s.spawn) := by
  constructor
  · by_cases hc : s.close_redirect_thread_when_exit && s.spawn.isSome <;>
      simp [BasePort.close, hc, h1, h2]
  · intro hf
    have hc : (s.close_redirect_thread_when_exit && s.spawn.isSome) = false := by
      simp [hf]
    simp [BasePort.close, hc, h1, h2]

/-- C3 amended, witness at a concrete unowned facade. -/
theorem c3_close_always_closes_raw_port_witness :
    (BasePort.close
        { raw_port := some { has_close := true, closed := false, written := [[1]] },
          spawn := none, close_redirect_thread_when_exit := false,
          log_file_field := "" }).raw_port
      = some { has_close := true, closed := true, written := [[1]] }
    ∧ (({ raw_port := some { has_close := true, closed := false, written := [[1]] },
          spawn := none, close_redirect_thread_when_exit := false,
          log_file_field := "" } : BasePortState).close_redirect_thread_when_exit = false →
        (BasePort.close
          { raw_port := some { has_close := true, closed := false, written := [[1]] },
            spawn := none, close_redirect_thread_when_exit := false,
            log_file_field := "" }).spawn
        = ({ raw_port := some { has_close := true, closed := false, written := [[1]] },
             spawn := none, close_redirect_thread_when_exit := false,
             log_file_field := "" } : BasePortState).spawn) :=
  c3_close_always_closes_raw_port
    { raw_port := some { has_close := true, closed := false, written := [[1]] },
      spawn := none, close_redirect_thread_when_exit := false, log_file_field := "" }
    { has_close := true, closed := false, written := [[1]] } rfl rfl

/-- C5: whenever the wrapped matching call raises an exception from the
configured timeout set (`TimeoutError` or a pexpect exception), the
`handle_expect_timeout` decorator raises exactly the unified
`ExpectTimeout`, carrying the spawn's unmatched buffered data as
`data_in_buffer`. -/
theorem c5_timeout_unified_with_buffer (α : Type) (before : Bytes) (e : PyExc)
    (h : e.in_expect_timeout_exceptions = true) :
    handle_expect_timeout (some before) ((Except.error e : Except PyExc α))
      = .raised_expect_timeout ⟨e.message, .bytes before⟩ := by
  simp [handle_expect_timeout, h]

/-- C5 witness: a concrete `TimeoutError` with buffered `b"ab"`. -/
theorem c5_timeout_unified_with_buffer_witness :
    handle_expect_timeout (some [97, 98])
        ((Except.error (PyExc.timeout_error "Timeout exceeded.") : Except PyExc Unit))
      = .raised_expect_timeout ⟨"Timeout exceeded.", .bytes [97, 98]⟩ :=
  c5_timeout_unified_with_buffer Unit [97, 98] (PyExc.timeout_error "Timeout exceeded.") rfl

/-- C8 counterexample: entering `disable_redirect_thread` on a facade
whose redirect thread is not running leaves it not running after the
helper exits (the restart is guarded by `if stopped:`), contradicting
"after the helper exits the redirect thread is running even when it was
not running at the moment the helper was entered". -/
theorem c8_no_restart_when_not_running :
    (BasePort.disable_redirect_thread 5
        { raw_port := none, spawn := none,
          close_redirect_thread_when_exit := true, log_file_field := "" }
        id).spawn = none := by
  decide

/-- C8 amended: the helper stops redirection, runs the critical
section, and restarts redirection only when it actually stopped a
running thread; a facade whose thread was not running at entry is left
exactly as the critical section leaves it. -/
theorem c8_restart_only_if_stopped (now : Nat) (s : BasePortState)
    (body : BasePortState → BasePortState) :
    (s.spawn.isSome = true →
      ((BasePort.disable_redirect_thread now s body).spawn).isSome = true)
    ∧ (s.spawn = none → BasePort.disable_redirect_thread now s body = body s) := by
  constructor
  · intro hs
    cases hsp : s.spawn with
    | none => rw [hsp] at hs; simp at hs
    | some sp =>
      simp only [BasePort.disable_redirect_thread, BasePort.stop_redirect_thread, hsp,
        BasePort.start_redirect_thread]
      by_cases hb : (body { s with spawn := none }).spawn.isSome <;> simp [hb]
  · intro hs
    simp [BasePort.disable_redirect_thread, BasePort.stop_redirect_thread, hs]

/-- C8 amended, witness: with a running thread the helper ends with a
running thread; with no running thread and an identity critical section
the state is returned unchanged. -/
theorem c8_restart_only_if_stopped_witness :
    ((BasePort.disable_redirect_thread 7
        { raw_port := none, spawn := some (PortSpawn.init "" 0),
          close_redirect_thread_when_exit := true, log_file_field := "" }
        id).spawn).isSome = true
    ∧ BasePort.disable_redirect_thread 7
        { raw_port := none, spawn := none,
          close_redirect_thread_when_exit := true, log_file_field := "" }
        id
      = id { raw_port := none, spawn := none,
             close_redirect_thread_when_exit := true, log_file_field := "" } :=
  ⟨(c8_restart_only_if_stopped 7
      { raw_port := none, spawn := some (PortSpawn.init "" 0),
        close_redirect_thread_when_exit := true, log_file_field := "" } id).1 (by decide),
   (c8_restart_only_if_stopped 7
      { raw_port := none, spawn := none,
        close_redirect_thread_when_exit := true, log_file_field := "" } id).2 rfl⟩

/-- C9: the claim says assigning `log_file` re-points the line log
writer's flush target without restarting the reader.  In the legacy
variant (`esptest/adapter/base_port.py`) the setter assigns
`self._pexpect_proc.serial_log_file` — a leftover of the old attribute
name that this `PortSpawn` never reads (`_write_port_log` opens
`self.log_file`) — so the flush target stays the old path.  The current
variant (`esptest/adapter/port/base_port.py`) assigns
`self._pexpect_spawn.log_file` and behaves as claimed, keeping the
pending LineCache. -/
theorem c9_legacy_setter_misses_flush_target :
    LegacyBasePort.set_log_file
      { log_file_field := "old.log",
        pexpect_proc := some { log_file := "old.log", serial_log_file := none,
                               line_cache := [97] } }
      "new.log"
    = { log_file_field := "new.log",
        pexpect_proc := some { log_file := "old.log", serial_log_file := some "new.log",
                               line_cache := [97] } }
    ∧ LegacySpawn.flush_target
        { log_file := "old.log", serial_log_file := some "new.log", line_cache := [97] }
      = "old.log"
    ∧ BasePort.set_log_file
        { raw_port := none,
          spawn := some { data_cache := [], line_cache := [97], last_write_log_time := 0,
                          read_queue := [], receive_callback := false,
                          stop_event_set := false, thread_joined := false,
                          log_file := "old.log" },
          close_redirect_thread_when_exit := true, log_file_field := "old.log" }
        "new.log"
      = { raw_port := none,
          spawn := some { data_cache := [], line_cache := [97], last_write_log_time := 0,
                          read_queue := [], receive_callback := false,
                          stop_event_set := false, thread_joined := false,
                          log_file := "new.log" },
          close_redirect_thread_when_exit := true, log_file_field := "new.log" } := by
  refine ⟨?_, rfl, ?_⟩ <;> decide

/-- C10: on a started facade, `write_line(data, end)` performs exactly
one `write_bytes` of `to_bytes(data) ++ utf8(end)`, and with the
default `end='\n'` it is the same call as `write(data + '\n')` in the
byte domain. -/
theorem c10_write_line_bytes (s : BasePortState) (rp : RawPortState) (data : PyData)
    (lineEnd : Text) (h1 : s.spawn.isSome = true) (h2 : s.raw_port = some rp) :
    BasePort.write_line s data lineEnd
      = some { s with raw_port := some { rp with written := rp.written ++ [data.encode ++ utf8Encode lineEnd] } }
    ∧ BasePort.write_line s data [10]
      = BasePort.write s (.bytes (data.encode ++ [10])) := by
  constructor
  · rw [BasePort.write_line, to_bytes_str_ending]
    simp [BasePort.write, h1, h2, to_bytes, PyData.encode]
  · rw [BasePort.write_line, to_bytes_str_ending]
    have h10 : utf8Encode [10] = [10] := rfl
    rw [h10]

/-- C10 witness: writing `"hi"` with terminator `"\r\n"` on a concrete
started facade appends one chunk `b"hi\r\n"`; the default terminator
coincides with `write(data + '\n')`. -/
theorem c10_write_line_bytes_witness :
    BasePort.write_line
        { raw_port := some { has_close := false, closed := false, written := [] },
          spawn := some (PortSpawn.init "" 0),
          close_redirect_thread_when_exit := true, log_file_field := "" }
        (.str [104, 105]) [13, 10]
      = some { raw_port := some { has_close := false, closed := false, written := [[104, 105, 13, 10]] },
               spawn := some (PortSpawn.init "" 0),
               close_redirect_thread_when_exit := true, log_file_field := "" }
    ∧ BasePort.write_line
        { raw_port := some { has_close := false, closed := false, written := [] },
          spawn := some (PortSpawn.init "" 0),
          close_redirect_thread_when_exit := true, log_file_field := "" }
        (.str [104, 105]) [10]
      = BasePort.write
          { raw_port := some { has_close := false, closed := false, written := [] },
            spawn := some (PortSpawn.init "" 0),
            close_redirect_thread_when_exit := true, log_file_field := "" }
          (.bytes ((PyData.str [104, 105]).encode ++ [10])) :=
  c10_write_line_bytes
    { raw_port := some { has_close := false, closed := false, written := [] },
      spawn := some (PortSpawn.init "" 0),
      close_redirect_thread_when_exit := true, log_file_field := "" }
    { has_close := false, closed := false, written := [] }
    (.str [104, 105]) [13, 10] rfl rfl

/-- C4: `read_nonblocking(size, timeout)` first drains every queued
chunk into the DataCache in arrival order; if the resulting cache is
non-empty it returns its first `size` bytes at `t0` — immediately,
without waiting on the timeout — retaining the remainder; if the cache
is empty and nothing arrives by the deadline `t0 + timeout` fixed at
call start, it returns the empty byte string. -/
theorem c4_read_nonblocking_semantics (cache0 : Bytes) (queued : List Bytes)
    (arrivals : List (Nat × Bytes)) (size timeout t0 : Nat) :
    (cache0 ++ queued.flatten ≠ [] →
      read_nonblocking cache0 queued arrivals size timeout t0
        = { ret := (cache0 ++ queued.flatten).take size,
            data_cache := (cache0 ++ queued.flatten).drop size,
            return_time := t0 })
    ∧ (cache0 ++ queued.flatten = [] → (∀ tc ∈ arrivals, t0 + timeout < tc.1) →
      (read_nonblocking cache0 queued arrivals size timeout t0).ret = []) := by
  constructor
  · intro h
    have hne : (cache0 ++ queued.flatten).isEmpty = false := by
      match hc : cache0 ++ queued.flatten with
      | [] => exact absurd hc h
      | a :: l => rfl
    simp [read_nonblocking, waitForData_of_ne _ _ _ _ h, hne]
  · intro h ha
    have hw := waitForData_all_late (t0 + timeout) arrivals t0 ha
    simp [read_nonblocking, h, hw]

/-- C4 witness: a queued prefix is returned immediately; an arrival
after the deadline yields the empty result. -/
theorem c4_read_nonblocking_semantics_witness :
    read_nonblocking [1] [[2], [3]] [(200, [9])] 2 5 100
      = { ret := [1, 2], data_cache := [3], return_time := 100 }
    ∧ (read_nonblocking [] [] [(120, [7])] 1 5 100).ret = [] :=
  ⟨by
    rw [(c4_read_nonblocking_semantics [1] [[2], [3]] [(200, [9])] 2 5 100).1 (by decide)]
    decide,
   (c4_read_nonblocking_semantics [] [] [(120, [7])] 1 5 100).2 rfl (by decide)⟩

/-- A byte string with no newline does not end in a newline. -/
theorem endsWithNewline_false_of_contains (l : Bytes) (h : l.contains 10 = false) :
    endsWithNewline l = false := by
  cases hl : l.getLast? with
  | none => simp [endsWithNewline, hl]
  | some a =>
    by_cases ha : a = 10
    · subst ha
      have h10 : (10 : Nat) ∈ l.getLast? := by simp [hl]
      obtain ⟨hne, heq⟩ := List.mem_getLast?_eq_getLast h10
      have hmem : (10 : Nat) ∈ l := heq ▸ List.getLast_mem hne
      have : (10 : Nat) ∉ l := by simpa using h
      exact absurd hmem this
    · simp [endsWithNewline, hl, ha]

/-- C7: for every chunk appended by the log writer — if the cache now
ends with a newline, the whole cache is flushed and cleared; else if it
contains an embedded newline, exactly the slice through the last
newline (which ends in `\n`) is flushed and the newline-free suffix is
retained; else nothing is flushed unless the staleness condition
(`now - last_flush > read_timeout * 5` with pending data) holds, in
which case the whole cache is flushed and cleared. -/
theorem c7_line_log_flush_policy (read_timeout now : Nat) (line_cache0 : Bytes)
    (last_time : Nat) (data : Bytes) (hd : data ≠ []) :
    (endsWithNewline (line_cache0 ++ data) = true →
      write_port_log read_timeout now line_cache0 last_time data
        = { data_to_write := line_cache0 ++ data, line_cache := [],
            last_write_log_time := now })
    ∧ (endsWithNewline (line_cache0 ++ data) = false →
        (line_cache0 ++ data).contains 10 = true →
      ∃ i, rfindNewline (line_cache0 ++ data) = some i
        ∧ write_port_log read_timeout now line_cache0 last_time data
            = { data_to_write := (line_cache0 ++ data).take (i + 1),
                line_cache := (line_cache0 ++ data).drop (i + 1),
                last_write_log_time := now }
        ∧ (∃ pre, (line_cache0 ++ data).take (i + 1) = pre ++ [10])
        ∧ ((line_cache0 ++ data).drop (i + 1)).contains 10 = false)
    ∧ ((line_cache0 ++ data).contains 10 = false →
        (last_time + read_timeout * 5 < now →
          write_port_log read_timeout now line_cache0 last_time data
            = { data_to_write := line_cache0 ++ data, line_cache := [],
                last_write_log_time := now })
        ∧ (¬ last_time + read_timeout * 5 < now →
          write_port_log read_timeout now line_cache0 last_time data
            = { data_to_write := [], line_cache := line_cache0 ++ data,
                last_write_log_time := last_time })) := by
  have hdata : data.isEmpty = false := by simpa using hd
  have hlcne : line_cache0 ++ data ≠ [] := fun hc => hd (List.append_eq_nil.mp hc).2
  have hlc : (line_cache0 ++ data).isEmpty = false := by simpa using hlcne
  refine ⟨?_, ?_, ?_⟩
  · intro h
    simp [write_port_log, hdata, h, hlc, hlcne]
  · intro h1 h2
    have h2m : (10 ∈ line_cache0 ∨ 10 ∈ data) := by simpa using h2
    cases hr : rfindNewline (line_cache0 ++ data) with
    | none =>
      rw [rfindNewline_none _ hr] at h2
      exact Bool.noConfusion h2
    | some i =>
      obtain ⟨pre, hp⟩ := rfindNewline_take _ i hr
      have htake : (line_cache0 ++ data).take (i + 1) ≠ [] := by
        rw [hp]; simp
      refine ⟨i, rfl, ?_, ⟨pre, hp⟩, rfindNewline_drop _ i hr⟩
      simp [write_port_log, hdata, h1, h2m, hr, htake]
  · intro h
    have hm : ¬(10 ∈ line_cache0 ∨ 10 ∈ data) := by simpa using h
    have hend : endsWithNewline (line_cache0 ++ data) = false :=
      endsWithNewline_false_of_contains _ h
    constructor
    · intro hst
      simp [write_port_log, hdata, hend, hm, hlcne, hst]
    · intro hst
      simp [write_port_log, hdata, hend, hm, hlcne, hst]

/-- C7 witness: appending `b"b\n"` to a pending `b"a"` flushes the
whole cache `b"ab\n"` at once and clears it. -/
theorem c7_line_log_flush_policy_witness :
    write_port_log 1 50 [97] 0 [98, 10]
      = { data_to_write := [97, 98, 10], line_cache := [], last_write_log_time := 50 } :=
  (c7_line_log_flush_policy 1 50 [97] 0 [98, 10] (by decide)).1 (by decide)

/-- C6 counterexample: the text pattern `a..c` on the byte stream
`b"a\xc3\xa9c"` (UTF-8 for "aéc").  The byte-compiled pattern matches
the whole stream — `expect` succeeds — but the original text pattern
re-applied to the 3-character decoding "aéc" needs 4 characters and
fails, so `expect` returns `None`: the value returned is not a match
object whose content is the decoding of the matched bytes. -/
theorem c6_expect_returns_none_on_multibyte_dot :
    searchMatch (hasDotall (preservedFlags 0))
        (toByteReg (Reg.cat (.chr 97) (.cat .dot (.cat .dot (.chr 99))))) [97, 195, 169, 99]
      = some [97, 195, 169, 99]
    ∧ expectStrPattern (Reg.cat (.chr 97) (.cat .dot (.cat .dot (.chr 99)))) 0
        [97, 195, 169, 99]
      = .ok none := by
  decide

/-- C6 amended: when the byte-level search (pattern source re-encoded
to bytes, flags masked to `DOTALL | MULTILINE | IGNORECASE`) matches
`m`, `expect` returns exactly the original text pattern re-applied,
anchored, to the UTF-8 decoding of `m`; any match object so produced
has content equal to a prefix of that decoding, and the re-application
may also produce `None`. -/
theorem c6_expect_reapplies_text_pattern (pat : Reg) (flags : Nat) (stream m : Bytes)
    (h : searchMatch (hasDotall (preservedFlags flags)) (toByteReg pat) stream = some m) :
    expectStrPattern pat flags stream
      = .ok (matchAnchored (hasDotall flags) pat (utf8Decode m))
    ∧ ∀ t, matchAnchored (hasDotall flags) pat (utf8Decode m) = some t →
        ∃ u, t ++ u = utf8Decode m := by
  constructor
  · simp [expectStrPattern, h]
  · intro t ht
    rw [matchAnchored] at ht
    cases hm : mrun (hasDotall flags) (matchFuel pat (utf8Decode m)) pat (utf8Decode m) some with
    | none => rw [hm] at ht; simp at ht
    | some rest =>
      rw [hm] at ht
      simp at ht
      exact ⟨(utf8Decode m).drop ((utf8Decode m).length - rest.length),
        by rw [← ht]; exact List.take_append_drop _ _⟩

/-- C6 amended, witness: pattern `a.` on `b"xab"` byte-matches `b"ab"`
and the re-application returns the decoded text "ab", a prefix of the
decoding. -/
theorem c6_expect_reapplies_text_pattern_witness :
    expectStrPattern (Reg.cat (.chr 97) .dot) 0 [120, 97, 98]
      = .ok (matchAnchored (hasDotall 0) (Reg.cat (.chr 97) .dot) (utf8Decode [97, 98]))
    ∧ ∀ t, matchAnchored (hasDotall 0) (Reg.cat (.chr 97) .dot) (utf8Decode [97, 98]) = some t →
        ∃ u, t ++ u = utf8Decode [97, 98] :=
  c6_expect_reapplies_text_pattern (Reg.cat (.chr 97) .dot) 0 [120, 97, 98] [97, 98] (by decide)

end EspTest
